import Mathlib

/-!
Verification of the story-ranking core of `src/components/InsightsPanel.ts`
(worldmonitor): the importance-scoring function `getImportanceScore` and the
diversity-constrained top-K selection `selectTopStories`.

Modelling choices:
* JS numbers are modelled as rationals (`ℚ`); all quantities involved
  (15, 40, 10, 3, 2.5, 1.5, 50, 0.5, millisecond timestamps) are exact in ℚ.
* `Date.now()` is passed explicitly as a parameter `now` (milliseconds).
* `cluster.firstSeen.getTime()` is the field `firstSeen : ℚ` (milliseconds).
* The JS `Map<string, number>` used for per-source counting is modelled as a
  function `String → ℕ` that starts at the constant 0 (a `Map.get ?? 0` read).
* `Array.prototype.sort` (stable per ES2019) is modelled by the stable
  `List.mergeSort` with the comparator `b.score - a.score`, i.e. the boolean
  relation `b.score ≤ a.score`.
* `String.prototype.includes` / `toLowerCase` are modelled on character lists.
-/

namespace WorldMonitor

/-- Velocity info attached to a cluster: `{level, trend, sourcesPerHour}`. -/
structure Velocity where
  level : String
  trend : String
  sourcesPerHour : ℚ
deriving DecidableEq

/-- An event cluster (the fields of `ClusteredEvent` read by the ranking code). -/
structure ClusteredEvent where
  primaryTitle : String
  primarySource : String
  sourceCount : ℕ
  firstSeen : ℚ
  velocity : Option Velocity
  isAlert : Bool
deriving DecidableEq

/-- The fixed keyword list `InsightsPanel.CRITICAL_KEYWORDS`. -/
def CRITICAL_KEYWORDS : List String := [
  "war", "armada", "military", "attack", "invasion", "strike", "troops", "missile",
  "nuclear", "bomb", "airstrike", "artillery", "combat", "offensive", "deployed",
  "crisis", "emergency", "catastrophe", "disaster", "collapse", "martial law",
  "iran", "russia", "china", "taiwan", "ukraine", "north korea", "israel", "gaza",
  "summit", "sanctions", "ultimatum", "threat", "retaliation", "escalation"]

/-- Does `pat` occur at the head of `s`? (helper for substring containment). -/
def leadMatch : List Char → List Char → Bool
  | [], _ => true
  | _ :: _, [] => false
  | a :: as, b :: bs => a == b && leadMatch as bs

/-- JS `s.includes(pat)` on character lists: `pat` occurs somewhere in `s`. -/
def subMatch (pat : List Char) : List Char → Bool
  | [] => leadMatch pat []
  | c :: rest => leadMatch pat (c :: rest) || subMatch pat rest

/-- JS `title.toLowerCase()` as a character list. -/
def lowerChars (s : String) : List Char := s.data.map Char.toLower

/-- JS `CRITICAL_KEYWORDS.filter(kw => titleLower.includes(kw)).length`. -/
def keywordMatches (title : String) : ℕ :=
  (CRITICAL_KEYWORDS.filter (fun kw => subMatch kw.data (lowerChars title))).length

/-- JS `cluster.velocity?.level ?? "normal"`. -/
def velLevel (c : ClusteredEvent) : String :=
  match c.velocity with
  | some v => v.level
  | none => "normal"

/-- The `velMultiplier` record lookup, with the `?? 1` default for unknown keys. -/
def velMultiplier (level : String) : ℚ :=
  if level = "viral" then 3
  else if level = "spike" then 5/2
  else if level = "elevated" then 3/2
  else if level = "normal" then 1
  else 1

/-- The recency factor: `Math.max(0.5, 1 - ageHours / 12)` where
`ageHours = (now - firstSeen) / 3600000`. -/
def recencyMultiplier (now : ℚ) (c : ClusteredEvent) : ℚ :=
  max (1/2) (1 - ((now - c.firstSeen) / 3600000) / 12)

/-- Function `getImportanceScore`, line by line from the source: base `sourceCount * 15`,
keyword boost `40 + matches * 10` when any keyword matches, times the velocity
multiplier, plus 50 when `isAlert`, times the recency multiplier. -/
def getImportanceScore (now : ℚ) (c : ClusteredEvent) : ℚ :=
  let titleMatches := keywordMatches c.primaryTitle
  let base : ℚ := (c.sourceCount : ℚ) * 15
  let withKw : ℚ := if 0 < titleMatches then base + (40 + (titleMatches : ℚ) * 10) else base
  let withVel : ℚ := withKw * velMultiplier (velLevel c)
  let withAlert : ℚ := if c.isAlert then withVel + 50 else withVel
  withAlert * recencyMultiplier now c

/-- The candidate filter of `selectTopStories`:
`c.sourceCount >= 2 || c.isAlert || (c.velocity && c.velocity.level !== "normal")`. -/
def passesFilter (c : ClusteredEvent) : Bool :=
  decide (2 ≤ c.sourceCount) || c.isAlert ||
    (match c.velocity with
     | some v => v.level != "normal"
     | none => false)

/-- The ephemeral `{cluster, score}` pairing built during ranking. -/
structure Scored where
  cluster : ClusteredEvent
  score : ℚ
deriving DecidableEq

/-- The sort comparator `(a, b) => b.score - a.score` as a boolean "a before b"
relation: descending by score. -/
def scoreDescLE (a b : Scored) : Bool := decide (b.score ≤ a.score)

/-- The greedy selection loop of `selectTopStories`: walk the sorted list; admit
a candidate when fewer than `MAX_PER_SOURCE = 3` already-selected items share its
primary source; after each iteration break once `selected.length >= maxCount`.
The break test runs after the (possible) push, exactly as in the source. -/
def selectLoop (maxCount : ℤ) : List Scored → List ClusteredEvent → (String → ℕ) → List ClusteredEvent
  | [], selected, _ => selected
  | s :: rest, selected, counts =>
    if counts s.cluster.primarySource < 3 then
      let selected2 := selected ++ [s.cluster]
      let counts2 := fun k =>
        if k == s.cluster.primarySource then counts s.cluster.primarySource + 1 else counts k
      if maxCount ≤ (selected2.length : ℤ) then selected2
      else selectLoop maxCount rest selected2 counts2
    else
      if maxCount ≤ (selected.length : ℤ) then selected
      else selectLoop maxCount rest selected counts

/-- The `candidates.map(...).sort(...)` pipeline of `selectTopStories`: filter,
pair each candidate with its score, stable-sort descending by score. -/
def scoredList (now : ℚ) (clusters : List ClusteredEvent) : List Scored :=
  ((clusters.filter passesFilter).map (fun c => Scored.mk c (getImportanceScore now c))).mergeSort
    scoreDescLE

/-- Function `selectTopStories(clusters, maxCount)`: filter, score, stable-sort descending
by score, then greedily select with the per-source diversity cap. -/
def selectTopStories (now : ℚ) (clusters : List ClusteredEvent) (maxCount : ℤ) :
    List ClusteredEvent :=
  selectLoop maxCount (scoredList now clusters) [] (fun _ => 0)

/-- Number of elements of `l` whose primary source is `s` (spec's "share one
primary source" count). -/
def srcCount (l : List ClusteredEvent) (s : String) : ℕ :=
  (l.filter (fun c => c.primarySource == s)).length

/-- The keyword-boost summand of the score, as a standalone quantity:
`40 + 10 × matches` when at least one keyword matches, else 0. -/
def kwBoost (c : ClusteredEvent) : ℚ :=
  if 0 < keywordMatches c.primaryTitle
  then 40 + (keywordMatches c.primaryTitle : ℚ) * 10 else 0

/-- The alert-bonus summand of the score: 50 when `isAlert`, else 0. -/
def alertBonus (c : ClusteredEvent) : ℚ := if c.isAlert then 50 else 0

/-- Modelled from the spec's words (claim C1): the velocity factor table
"viral→3, spike→2.5, elevated→1.5, normal or unset→1". -/
def specVelocityFactor (vel : Option Velocity) : ℚ :=
  match vel with
  | none => 1
  | some v =>
    if v.level = "viral" then 3
    else if v.level = "spike" then 5/2
    else if v.level = "elevated" then 3/2
    else 1

/-- Modelled from the spec's words (claim C1): importance =
(base `sourceCount × 15`, plus `40 + 10×matches` when at least one keyword
matches, times the velocity factor, plus 50 when flagged as alert) times the
recency factor — in exactly this order. -/
def importanceSpec (now : ℚ) (c : ClusteredEvent) : ℚ :=
  (((c.sourceCount : ℚ) * 15 +
      (if 0 < keywordMatches c.primaryTitle
       then 40 + (keywordMatches c.primaryTitle : ℚ) * 10 else 0)) *
      specVelocityFactor c.velocity +
    (if c.isAlert then 50 else 0)) *
    recencyMultiplier now c

/-- Whitespace-split of a character list into words (for stating that a keyword
occurs only inside a longer word, never as a standalone word). -/
def wordsOf : List Char → List (List Char)
  | [] => [[]]
  | c :: rest =>
    if c == ' ' then [] :: wordsOf rest
    else
      match wordsOf rest with
      | [] => [[c]]
      | w :: ws => (c :: w) :: ws

/-- Concrete cluster: two sources, no alert, no velocity info — passes the
candidate filter on source count alone. -/
def cexB : ClusteredEvent :=
  { primaryTitle := "b", primarySource := "srcB", sourceCount := 2,
    firstSeen := 0, velocity := none, isAlert := false }

/-- Concrete cluster: single source, no alert, no velocity info — fails every
disjunct of the candidate filter. -/
def cexWeak : ClusteredEvent :=
  { primaryTitle := "w", primarySource := "srcW", sourceCount := 1,
    firstSeen := 0, velocity := none, isAlert := false }

/-- Concrete cluster flagged as an alert (12 hours old at `now = 43200000`). -/
def cexA : ClusteredEvent :=
  { primaryTitle := "b", primarySource := "srcB", sourceCount := 1,
    firstSeen := 0, velocity := none, isAlert := true }

/-- Cluster `cexA` with the alert flag cleared; otherwise identical. -/
def cexN : ClusteredEvent :=
  { primaryTitle := "b", primarySource := "srcB", sourceCount := 1,
    firstSeen := 0, velocity := none, isAlert := false }

/-- Concrete cluster whose title contains the keyword "war" only inside the
longer word "software". -/
def cexSoft : ClusteredEvent :=
  { primaryTitle := "Software update released", primarySource := "s", sourceCount := 1,
    firstSeen := 0, velocity := none, isAlert := false }

/-! ## Helper lemmas about the scoring function -/

/-- The score in closed linear form: `((sourceCount·15 + kwBoost)·vel + alertBonus)·recency`. -/
theorem getImportanceScore_linear (now : ℚ) (c : ClusteredEvent) :
    getImportanceScore now c =
      (((c.sourceCount : ℚ) * 15 + kwBoost c) * velMultiplier (velLevel c) + alertBonus c) *
        recencyMultiplier now c := by
  unfold getImportanceScore kwBoost alertBonus
  by_cases hk : 0 < keywordMatches c.primaryTitle <;> by_cases ha : c.isAlert <;>
    simp [hk, ha]

theorem one_le_velMultiplier (l : String) : 1 ≤ velMultiplier l := by
  unfold velMultiplier
  split_ifs <;> norm_num

theorem kwBoost_nonneg (c : ClusteredEvent) : 0 ≤ kwBoost c := by
  unfold kwBoost
  split_ifs with h
  · positivity
  · norm_num

theorem alertBonus_nonneg (c : ClusteredEvent) : 0 ≤ alertBonus c := by
  unfold alertBonus
  split_ifs <;> norm_num

theorem half_le_recencyMultiplier (now : ℚ) (c : ClusteredEvent) :
    1/2 ≤ recencyMultiplier now c := le_max_left _ _

/-- At age zero (`now = firstSeen`) the recency factor is exactly 1. -/
theorem recencyMultiplier_self (c : ClusteredEvent) :
    recencyMultiplier c.firstSeen c = 1 := by
  unfold recencyMultiplier
  rw [sub_self]
  norm_num [max_def]

/-- The pre-decay portion of the score is non-negative. -/
theorem preScore_nonneg (c : ClusteredEvent) :
    0 ≤ ((c.sourceCount : ℚ) * 15 + kwBoost c) * velMultiplier (velLevel c) + alertBonus c := by
  have h1 : (0:ℚ) ≤ (c.sourceCount : ℚ) * 15 + kwBoost c :=
    add_nonneg (by positivity) (kwBoost_nonneg c)
  have h2 : (0:ℚ) ≤ velMultiplier (velLevel c) :=
    le_trans (by norm_num) (one_le_velMultiplier _)
  exact add_nonneg (mul_nonneg h1 h2) (alertBonus_nonneg c)

/-! ## Helper lemmas about the sorted candidate list -/

/-- Every element of the scored list is a filtered input cluster paired with its
score at time `now`. -/
theorem mem_scoredList {now : ℚ} {clusters : List ClusteredEvent} {s : Scored}
    (hs : s ∈ scoredList now clusters) :
    s.cluster ∈ clusters ∧ passesFilter s.cluster = true ∧
      s.score = getImportanceScore now s.cluster := by
  unfold scoredList at hs
  rw [List.mem_mergeSort, List.mem_map] at hs
  obtain ⟨c, hc, rfl⟩ := hs
  rw [List.mem_filter] at hc
  exact ⟨hc.1, hc.2, rfl⟩

/-- The scored list is pairwise sorted by the descending-score comparator. -/
theorem scoredList_pairwise (now : ℚ) (clusters : List ClusteredEvent) :
    (scoredList now clusters).Pairwise (fun a b => scoreDescLE a b = true) := by
  unfold scoredList
  refine List.sorted_mergeSort ?_ ?_ _
  · intro a b c hab hbc
    simp only [scoreDescLE, decide_eq_true_eq] at *
    exact le_trans hbc hab
  · intro a b
    simp only [scoreDescLE, Bool.or_eq_true, decide_eq_true_eq]
    exact le_total b.score a.score

/-! ## Helper lemmas about the greedy selection loop -/

theorem srcCount_append_singleton (l : List ClusteredEvent) (c : ClusteredEvent) (t : String) :
    srcCount (l ++ [c]) t = srcCount l t + (if c.primarySource == t then 1 else 0) := by
  unfold srcCount
  rw [List.filter_append, List.length_append]
  cases h : c.primarySource == t <;> simp [List.filter_cons, h]

/-- The loop only ever appends to `selected`, and what it appends is a
subsequence of the clusters of the remaining scored list. -/
theorem selectLoop_append (mc : ℤ) (scored : List Scored) :
    ∀ (sel : List ClusteredEvent) (cnt : String → ℕ),
      ∃ u, selectLoop mc scored sel cnt = sel ++ u ∧
        u.Sublist (scored.map (fun s => s.cluster)) := by
  induction scored with
  | nil =>
    intro sel cnt
    exact ⟨[], by simp [selectLoop], by simp⟩
  | cons s rest ih =>
    intro sel cnt
    simp only [selectLoop, List.map_cons]
    split_ifs with h3 hb hb2
    · exact ⟨[s.cluster], rfl, (List.nil_sublist _).cons₂ _⟩
    · obtain ⟨u, hu, hsub⟩ := ih (sel ++ [s.cluster])
        (fun k => if k == s.cluster.primarySource then cnt s.cluster.primarySource + 1 else cnt k)
      refine ⟨s.cluster :: u, ?_, hsub.cons₂ _⟩
      rw [hu, List.append_assoc]
      rfl
    · exact ⟨[], by simp, by simp⟩
    · obtain ⟨u, hu, hsub⟩ := ih sel cnt
      exact ⟨u, hu, hsub.cons _⟩

/-- If the running per-source counter agrees with the counts over `selected`,
and every source appears at most 3 times in `selected`, then every source
appears at most 3 times in the loop's output. -/
theorem selectLoop_srcCount (mc : ℤ) (scored : List Scored) :
    ∀ (sel : List ClusteredEvent) (cnt : String → ℕ),
      (∀ t, cnt t = srcCount sel t) → (∀ t, srcCount sel t ≤ 3) →
      ∀ t, srcCount (selectLoop mc scored sel cnt) t ≤ 3 := by
  induction scored with
  | nil =>
    intro sel cnt _ hbound t
    simpa [selectLoop] using hbound t
  | cons s rest ih =>
    intro sel cnt hinv hbound t
    simp only [selectLoop]
    by_cases h3 : cnt s.cluster.primarySource < 3
    · rw [if_pos h3]
      have hinv2 : ∀ u,
          (if u == s.cluster.primarySource then cnt s.cluster.primarySource + 1 else cnt u) =
            srcCount (sel ++ [s.cluster]) u := by
        intro u
        rw [srcCount_append_singleton]
        by_cases hu : u = s.cluster.primarySource
        · subst hu
          simp [hinv]
        · simp [beq_iff_eq, hu, Ne.symm hu, hinv]
      have hbound2 : ∀ u, srcCount (sel ++ [s.cluster]) u ≤ 3 := by
        intro u
        rw [srcCount_append_singleton]
        by_cases hu : s.cluster.primarySource = u
        · subst hu
          simp only [beq_self_eq_true, if_true]
          have h4 := hinv s.cluster.primarySource
          omega
        · simp only [beq_iff_eq, hu, if_false]
          have := hbound u
          omega
      split_ifs with hb
      · exact hbound2 t
      · exact ih _ _ hinv2 hbound2 t
    · rw [if_neg h3]
      split_ifs with hb
      · exact hbound t
      · exact ih sel cnt hinv hbound t

/-- Provenance: everything `selectTopStories` returns is an input cluster that
passed the candidate filter. -/
theorem mem_selectTopStories_provenance (now : ℚ) (clusters : List ClusteredEvent) (mc : ℤ)
    {x : ClusteredEvent} (hx : x ∈ selectTopStories now clusters mc) :
    x ∈ clusters ∧ passesFilter x = true := by
  obtain ⟨u, hu, hsub⟩ := selectLoop_append mc (scoredList now clusters) [] (fun _ => 0)
  rw [selectTopStories, hu, List.nil_append] at hx
  have hx2 : x ∈ (scoredList now clusters).map (fun s => s.cluster) := hsub.subset hx
  rw [List.mem_map] at hx2
  obtain ⟨s, hs, rfl⟩ := hx2
  have h := mem_scoredList hs
  exact ⟨h.1, h.2.1⟩

/-! ## Concrete evaluations used by witnesses and counterexamples -/

theorem eval_selectB0 : selectTopStories 0 [cexB] 0 = [cexB] := by
  simp [selectTopStories, scoredList, selectLoop, passesFilter, cexB, List.filter]

theorem eval_selectB8 : selectTopStories 0 [cexB] 8 = [cexB] := by
  simp [selectTopStories, scoredList, selectLoop, passesFilter, cexB, List.filter]

/-! ## Claim theorems -/

/-- C1: the importance score is computed in the fixed order
base `sourceCount × 15`, plus `40 + 10×matches` when at least one keyword
matches the lowercased title, times the velocity factor
(viral→3, spike→2.5, elevated→1.5, normal or unset→1), plus 50 when the
cluster is an alert, times the recency factor. -/
theorem C1_importance_order (now : ℚ) (c : ClusteredEvent) :
    getImportanceScore now c = importanceSpec now c := by
  have hvel : velMultiplier (velLevel c) = specVelocityFactor c.velocity := by
    cases hc : c.velocity with
    | none => simp [velLevel, velMultiplier, specVelocityFactor, hc]
    | some v =>
      simp only [velLevel, velMultiplier, specVelocityFactor, hc]
      split_ifs <;> rfl
  rw [getImportanceScore_linear]
  unfold importanceSpec kwBoost alertBonus
  rw [hvel]

/-- C2 counterexample: for a 12-hour-old cluster the alert flag changes the
final score by 25, not 50 — the +50 alert bonus is scaled by the recency
multiplier. -/
theorem C2_counterexample :
    getImportanceScore 43200000 cexA - getImportanceScore 43200000 cexN = 25 ∧
    (25 : ℚ) ≠ 50 := by
  constructor
  · have h : keywordMatches "b" = 0 := by decide
    simp [getImportanceScore, cexA, cexN, h, velLevel, velMultiplier, recencyMultiplier]
    norm_num
  · norm_num

/-- C2 (amended): the alert flag contributes `50 × recencyMultiplier` to the
final score — it is added after the velocity multiplier (so not scaled by
velocity) but, like the rest of the score, it is scaled by the recency factor. -/
theorem C2_alert_contribution (now : ℚ) (c : ClusteredEvent) :
    getImportanceScore now { c with isAlert := true } -
      getImportanceScore now { c with isAlert := false } =
      50 * recencyMultiplier now c := by
  rw [getImportanceScore_linear, getImportanceScore_linear]
  simp [kwBoost, alertBonus, velLevel, recencyMultiplier]
  ring

/-- C3 counterexample: with `maxCount = 0` and one filter-passing cluster the
output is `[cexB]`, not the empty list — the loop pushes one item before the
break test runs. -/
theorem C3_counterexample : selectTopStories 0 [cexB] 0 ≠ [] := by
  rw [eval_selectB0]
  simp

/-- C3 (amended): for `maxCount ≤ 0` the output has at most one element (empty
when nothing passes the filter, otherwise exactly the top-scored candidate). -/
theorem C3_amended_nonpos (now : ℚ) (clusters : List ClusteredEvent) (mc : ℤ)
    (h : mc ≤ 0) : (selectTopStories now clusters mc).length ≤ 1 := by
  rw [selectTopStories]
  cases hs : scoredList now clusters with
  | nil => simp [selectLoop]
  | cons s rest =>
    simp only [selectLoop]
    rw [if_pos (by norm_num : (0:ℕ) < 3)]
    rw [if_pos (show mc ≤ ((([] : List ClusteredEvent) ++ [s.cluster]).length : ℤ) by
      simp; omega)]
    simp

/-- C3 witness for the amended theorem, at `maxCount = 0`. -/
theorem C3_amended_witness :
    (0 : ℤ) ≤ 0 ∧ (selectTopStories 0 [cexB] 0).length ≤ 1 :=
  ⟨le_refl 0, C3_amended_nonpos 0 [cexB] 0 (le_refl 0)⟩

/-- C4: a cluster with fewer than 2 sources, no alert flag, and missing or
"normal" velocity never appears in the output of `selectTopStories`. -/
theorem C4_weak_cluster_excluded (now : ℚ) (clusters : List ClusteredEvent) (mc : ℤ)
    (c : ClusteredEvent) (h1 : c.sourceCount < 2) (h2 : c.isAlert = false)
    (h3 : c.velocity = none ∨ ∃ v, c.velocity = some v ∧ v.level = "normal") :
    c ∉ selectTopStories now clusters mc := by
  intro hmem
  have hp := (mem_selectTopStories_provenance now clusters mc hmem).2
  unfold passesFilter at hp
  rcases h3 with h3 | ⟨v, hv, hlev⟩
  · simp [h3, h2] at hp
    omega
  · simp [hv, hlev, h2] at hp
    omega

/-- C4 witness: the single-source, non-alert, velocity-free cluster `cexWeak`
is not selected from `[cexWeak, cexB]` with `maxCount = 8`. -/
theorem C4_witness :
    cexWeak.sourceCount < 2 ∧ cexWeak.isAlert = false ∧ cexWeak.velocity = none ∧
      cexWeak ∉ selectTopStories 0 [cexWeak, cexB] 8 :=
  ⟨by decide, rfl, rfl,
    C4_weak_cluster_excluded 0 [cexWeak, cexB] 8 cexWeak (by decide) rfl (Or.inl rfl)⟩

/-- C5: in the output of `selectTopStories`, at most 3 elements share any one
primary source. -/
theorem C5_diversity_cap (now : ℚ) (clusters : List ClusteredEvent) (mc : ℤ) (s : String) :
    srcCount (selectTopStories now clusters mc) s ≤ 3 := by
  rw [selectTopStories]
  exact selectLoop_srcCount mc (scoredList now clusters) [] (fun _ => 0)
    (fun t => rfl) (fun t => by simp [srcCount]) s

/-- C6: the output of `selectTopStories` is ordered by non-increasing
importance score (scores computed at the same time instant `now`); diversity
filtering skips candidates but never reorders the admitted ones. -/
theorem C6_output_sorted (now : ℚ) (clusters : List ClusteredEvent) (mc : ℤ) :
    (selectTopStories now clusters mc).Pairwise
      (fun a b => getImportanceScore now b ≤ getImportanceScore now a) := by
  obtain ⟨u, hu, hsub⟩ := selectLoop_append mc (scoredList now clusters) [] (fun _ => 0)
  rw [selectTopStories, hu, List.nil_append]
  have hp : ((scoredList now clusters).map (fun s => s.cluster)).Pairwise
      (fun a b => getImportanceScore now b ≤ getImportanceScore now a) := by
    rw [List.pairwise_map]
    refine List.Pairwise.imp_of_mem ?_ (scoredList_pairwise now clusters)
    intro a b ha hb hab
    have ha2 := (mem_scoredList ha).2.2
    have hb2 := (mem_scoredList hb).2.2
    simp only [scoreDescLE, decide_eq_true_eq] at hab
    rw [← ha2, ← hb2]
    exact hab
  exact List.Pairwise.sublist hsub hp

/-- C7: all else equal, a strictly larger `sourceCount` gives a strictly larger
importance score. -/
theorem C7_strict_mono_sourceCount (now : ℚ) (c : ClusteredEvent) (n : ℕ)
    (h : c.sourceCount < n) :
    getImportanceScore now c < getImportanceScore now { c with sourceCount := n } := by
  rw [getImportanceScore_linear, getImportanceScore_linear]
  have hV : (1:ℚ) ≤ velMultiplier (velLevel c) := one_le_velMultiplier _
  have hR : (1:ℚ)/2 ≤ recencyMultiplier now c := half_le_recencyMultiplier now c
  have hc : (c.sourceCount : ℚ) < n := by exact_mod_cast h
  show (((c.sourceCount : ℚ) * 15 + kwBoost c) * velMultiplier (velLevel c) + alertBonus c) *
      recencyMultiplier now c <
    (((n : ℚ) * 15 + kwBoost c) * velMultiplier (velLevel c) + alertBonus c) *
      recencyMultiplier now c
  apply mul_lt_mul_of_pos_right _ (lt_of_lt_of_le (by norm_num) hR)
  apply add_lt_add_right
  apply mul_lt_mul_of_pos_right _ (lt_of_lt_of_le (by norm_num) hV)
  linarith

/-- C7 witness: raising `cexWeak`'s source count from 1 to 2 strictly raises
its score. -/
theorem C7_witness :
    cexWeak.sourceCount < 2 ∧
      getImportanceScore 0 cexWeak < getImportanceScore 0 { cexWeak with sourceCount := 2 } :=
  ⟨by decide, C7_strict_mono_sourceCount 0 cexWeak 2 (by decide)⟩

/-- C8: the recency multiplier is `max(0.5, 1 − ageHours/12)`, and the score of
a cluster at any time is at least half the score of the identical cluster at
age zero — the recency floor of 0.5 caps the decay. -/
theorem C8_recency_floor (now : ℚ) (c : ClusteredEvent) :
    recencyMultiplier now c = max (1/2) (1 - ((now - c.firstSeen) / 3600000) / 12) ∧
    (1/2) * getImportanceScore c.firstSeen c ≤ getImportanceScore now c := by
  refine ⟨rfl, ?_⟩
  rw [getImportanceScore_linear, getImportanceScore_linear, recencyMultiplier_self]
  have hP := preScore_nonneg c
  have hR := half_le_recencyMultiplier now c
  nlinarith [mul_le_mul_of_nonneg_left hR hP]

/-- C9: every element of the output of `selectTopStories` is drawn from the
input list (the ranking pipeline is a pure function of its inputs: filter, map,
a fresh sorted array, and a fresh output array). -/
theorem C9_elements_from_input (now : ℚ) (clusters : List ClusteredEvent) (mc : ℤ) :
    ∀ c ∈ selectTopStories now clusters mc, c ∈ clusters :=
  fun _ hc => (mem_selectTopStories_provenance now clusters mc hc).1

/-- C9 witness: the selected cluster `cexB` is an element of the input list. -/
theorem C9_witness : cexB ∈ selectTopStories 0 [cexB] 8 ∧ cexB ∈ [cexB] := by
  have h : cexB ∈ selectTopStories 0 [cexB] 8 := by
    rw [eval_selectB8]
    exact List.mem_singleton_self _
  exact ⟨h, C9_elements_from_input 0 [cexB] 8 cexB h⟩

/-- C10: keyword matching is substring containment on the lowercased title, not
whole-word matching: the title "Software update released" contains "war" only
inside the word "software", yet the keyword boost (40 + 10×1) is applied and
the score is (1·15 + 50)·1·1 = 65. -/
theorem C10_substring_keyword_match :
    keywordMatches cexSoft.primaryTitle = 1 ∧
    subMatch ("war".data) (lowerChars cexSoft.primaryTitle) = true ∧
    (wordsOf (lowerChars cexSoft.primaryTitle)).contains ("war".data) = false ∧
    getImportanceScore 0 cexSoft = 65 := by
  refine ⟨by decide, by decide, by decide, ?_⟩
  have h : keywordMatches "Software update released" = 1 := by decide
  simp [getImportanceScore, h, velLevel, cexSoft, velMultiplier, recencyMultiplier]
  norm_num

end WorldMonitor
